import Mathlib

/-!
Shallow embedding of the Mini-Agent ACP bridge (src/mini_agent/acp/__init__.py)
and its LLM client (src/mini_agent/llm.py), together with proofs about the
turn-execution loop, the session manager, the tool dispatcher, the offline
deterministic substitute, and the response parsing/serialization pair.

Modelling conventions:
- Python dicts used as maps (tool registry, session map) become association
  lists with first-match lookup; insertion-order-preserving value replacement
  mirrors dict assignment.
- Python argument mappings (JSON-ish values) become `PyVal` association lists.
- The session cancellation flag is mutated concurrently by `cancel`; each read
  inside `_run_turn` is therefore modelled as an oracle (`cB` for the
  checkpoint before the model call, `cA` for the checkpoint after it),
  indexed by the step number.
- The LLM backend (`generate`) is modelled as a state-threading function of
  the conversation; the Bool argument is the truthiness of the tool-schema
  list built from the registry, which is all the offline substitute consumes.
- Exceptions become `Except String`.
-/

namespace MiniAgent

/-- A Python value appearing in a tool-call argument mapping. -/
inductive PyVal where
  | str (s : String)
  | int (n : Int)
  | bool (b : Bool)
  deriving DecidableEq

/-- A tool-call argument mapping (Python dict, insertion ordered). -/
abbrev Args := List (String × PyVal)

/-- schema.FunctionCall: target tool name and structured arguments. -/
structure FunctionCall where
  name : String
  arguments : Args
  deriving DecidableEq

/-- schema.ToolCall: correlation id, type tag, and the function payload. -/
structure ToolCall where
  id : String
  type : String
  function : FunctionCall
  deriving DecidableEq

/-- Message roles. -/
inductive Role where
  | system
  | user
  | assistant
  | tool
  deriving DecidableEq

/-- schema.Message: the canonical conversation element. -/
structure Message where
  role : Role
  content : String
  thinking : Option String := none
  tool_calls : Option (List ToolCall) := none
  tool_call_id : Option String := none
  name : Option String := none
  deriving DecidableEq

/-- schema.ToolResult: outcome of one tool execution. -/
structure ToolResult where
  success : Bool
  content : String
  error : Option String
  deriving DecidableEq

/-- schema.LLMResponse as produced by LLMClient.generate. -/
structure LLMResponse where
  content : String
  thinking : Option String
  tool_calls : Option (List ToolCall)
  finish_reason : String
  deriving DecidableEq

/-- A tool execute function: may raise (Except.error) or return a ToolResult. -/
abbrev ToolFn := Args → Except String ToolResult

/-- Python dict.get on an association list (keys unique in practice). -/
def lookupAssoc {α : Type} : List (String × α) → String → Option α
  | [], _ => none
  | (k, v) :: rest, key => if k = key then some v else lookupAssoc rest key

/-- Python dict value assignment at an existing key (order preserving). -/
def updateAssoc {α : Type} : List (String × α) → String → α → List (String × α)
  | [], _, _ => []
  | (k, v) :: rest, key, nv =>
    if k = key then (k, nv) :: rest else (k, v) :: updateAssoc rest key nv

/-- Model of the Python repr used on argument values by _format_tool_args. -/
def pyRepr : PyVal → String
  | .str s => "\x27" ++ s ++ "\x27"
  | .int n => toString n
  | .bool b => if b then "True" else "False"

/-- Python character slicing s[:n]. -/
def strTake (s : String) (n : Nat) : String := String.mk (s.data.take n)

/-- Value rendering of _format_tool_args: repr, cut to 45 chars plus an
ellipsis once it exceeds 48 characters. -/
def truncVal (v : PyVal) : String :=
  let t := pyRepr v
  if 48 < t.length then strTake t 45 ++ "..." else t

/-- One `key=value` part of the argument summary. -/
def mkPart (kv : String × PyVal) : String := kv.1 ++ "=" ++ truncVal kv.2

/-- Python str.join with separator ", ". -/
def joinParts : List String → String
  | [] => ""
  | [p] => p
  | p :: rest => p ++ ", " ++ joinParts rest

/-- The part-collecting loop of _format_tool_args: append a part per entry,
breaking once three parts have been collected. -/
def collectParts : List (String × PyVal) → Nat → List String
  | [], _ => []
  | kv :: rest, n =>
    let part := mkPart kv
    if n + 1 = 3 then [part] else part :: collectParts rest (n + 1)

/-- _format_tool_args: summary of a tool-call argument mapping for UI labels. -/
def formatToolArgs (args : Args) : String :=
  if args.isEmpty then "" else joinParts (collectParts args 0)

/-- The started/finished label for a dispatched call (acp lines 167-168). -/
def toolLabel (c : ToolCall) : String :=
  let s := formatToolArgs c.function.arguments
  if s = "" then c.function.name ++ "()" else c.function.name ++ "(" ++ s ++ ")"

/-- Streaming session-update events emitted during a turn. -/
inductive Update where
  | errorMessage (text : String)
  | thought (text : String)
  | message (text : String)
  | toolStarted (id label : String) (rawInput : Args)
  | toolFinished (id status text : String)
  deriving DecidableEq

/-- Dispatch of one tool call (acp lines 170-179): returns the status string,
the result text, and the log of actually-invoked (name, args) pairs. -/
def dispatchResult (tools : List (String × ToolFn)) (c : ToolCall) :
    String × String × List (String × Args) :=
  match lookupAssoc tools c.function.name with
  | none => ("failed", "Unknown tool: " ++ c.function.name, [])
  | some f =>
    match f c.function.arguments with
    | Except.ok r =>
      ((if r.success then "completed" else "failed"),
       (if r.success then r.content
        else match r.error with
          | some e => if e = "" then "Tool execution failed" else e
          | none => "Tool execution failed"),
       [(c.function.name, c.function.arguments)])
    | Except.error e =>
      ("failed", "Tool error: " ++ e, [(c.function.name, c.function.arguments)])

/-- The tool-role Message appended for a dispatched call (acp line 181). -/
def toolMsgOf (tools : List (String × ToolFn)) (c : ToolCall) : Message :=
  { role := Role.tool, content := (dispatchResult tools c).2.1,
    tool_call_id := some c.id, name := some c.function.name }

/-- The per-call loop body of _run_turn (acp lines 165-181): for each call in
order, emit started/finished events, log invocations, and build the tool-role
message carrying the result text, the call id and the tool name. -/
def runCalls (tools : List (String × ToolFn)) :
    List ToolCall → List Message × List Update × List (String × Args)
  | [] => ([], [], [])
  | c :: rest =>
    let d := dispatchResult tools c
    let tail := runCalls tools rest
    (toolMsgOf tools c :: tail.1,
     Update.toolStarted c.id (toolLabel c) c.function.arguments ::
       Update.toolFinished c.id d.1 d.2.1 :: tail.2.1,
     d.2.2 ++ tail.2.2)

/-- The assistant Message appended after a model response (acp line 162). -/
def assistantOf (r : LLMResponse) : Message :=
  { role := Role.assistant, content := r.content, thinking := r.thinking,
    tool_calls := r.tool_calls }

/-- Thought update for a step: emitted only when thinking is truthy. -/
def thinkUpdates (r : LLMResponse) : List Update :=
  match r.thinking with
  | some t => if t = "" then [] else [Update.thought t]
  | none => []

/-- Message update for a step: emitted only when content is truthy. -/
def contentUpdates (r : LLMResponse) : List Update :=
  if r.content = "" then [] else [Update.message r.content]

instance exceptDecEq {ε α : Type} [DecidableEq ε] [DecidableEq α] :
    DecidableEq (Except ε α) := fun x y =>
  match x, y with
  | Except.ok a, Except.ok b =>
    if h : a = b then isTrue (by rw [h])
    else isFalse (by intro hh; cases hh; exact h rfl)
  | Except.error a, Except.error b =>
    if h : a = b then isTrue (by rw [h])
    else isFalse (by intro hh; cases hh; exact h rfl)
  | Except.ok _, Except.error _ => isFalse (by intro hh; cases hh)
  | Except.error _, Except.ok _ => isFalse (by intro hh; cases hh)

/-- Observable outcome of a turn: the stop reason, the final conversation, the
stream of updates, the conversation snapshot given to each model call, each
model call outcome, and the log of tool invocations. -/
structure TurnResult where
  stopReason : String
  messages : List Message
  updates : List Update
  llmInputs : List (List Message)
  llmOutputs : List (Except String LLMResponse)
  invoked : List (String × Args)

/-- The step loop of MiniMaxACPAgent._run_turn (acp lines 144-182), with the
remaining iteration budget as fuel and the current step index feeding the
cancellation-read oracles. -/
def runTurnLoop {σ : Type} (llm : σ → List Message → Bool → Except String LLMResponse × σ)
    (tools : List (String × ToolFn)) (cB cA : Nat → Bool) :
    Nat → Nat → σ → List Message → TurnResult
  | 0, _, _, msgs =>
    { stopReason := "max_turn_requests", messages := msgs, updates := [],
      llmInputs := [], llmOutputs := [], invoked := [] }
  | fuel + 1, step, s, msgs =>
    if cB step then
      { stopReason := "cancelled", messages := msgs, updates := [],
        llmInputs := [], llmOutputs := [], invoked := [] }
    else
      match llm s msgs (!tools.isEmpty) with
      | (Except.error e, _) =>
        { stopReason := "refusal", messages := msgs,
          updates := [Update.errorMessage ("Error: " ++ e)],
          llmInputs := [msgs], llmOutputs := [Except.error e], invoked := [] }
      | (Except.ok r, s2) =>
        if cA step then
          { stopReason := "cancelled", messages := msgs, updates := [],
            llmInputs := [msgs], llmOutputs := [Except.ok r], invoked := [] }
        else
          match r.tool_calls with
          | none =>
            { stopReason := "end_turn", messages := msgs ++ [assistantOf r],
              updates := thinkUpdates r ++ contentUpdates r,
              llmInputs := [msgs], llmOutputs := [Except.ok r], invoked := [] }
          | some cs =>
            if cs.isEmpty then
              { stopReason := "end_turn", messages := msgs ++ [assistantOf r],
                updates := thinkUpdates r ++ contentUpdates r,
                llmInputs := [msgs], llmOutputs := [Except.ok r], invoked := [] }
            else
              let d := runCalls tools cs
              let rest := runTurnLoop llm tools cB cA fuel (step + 1) s2
                (msgs ++ [assistantOf r] ++ d.1)
              { stopReason := rest.stopReason, messages := rest.messages,
                updates := thinkUpdates r ++ contentUpdates r ++ d.2.1 ++ rest.updates,
                llmInputs := msgs :: rest.llmInputs,
                llmOutputs := Except.ok r :: rest.llmOutputs,
                invoked := d.2.2 ++ rest.invoked }

/-- MiniMaxACPAgent._run_turn for a whole turn: the loop started with the
session's step budget. -/
def runTurn {σ : Type} (llm : σ → List Message → Bool → Except String LLMResponse × σ)
    (tools : List (String × ToolFn)) (cB cA : Nat → Bool)
    (maxSteps : Nat) (s0 : σ) (msgs : List Message) : TurnResult :=
  runTurnLoop llm tools cB cA maxSteps 0 s0 msgs

/-- Per-session state held by the ACP bridge: the agent conversation, the
session's tool registry, its step budget, and the cancellation flag. -/
structure SessionState where
  messages : List Message
  tools : List (String × ToolFn)
  maxSteps : Nat
  cancelled : Bool

/-- MiniMaxACPAgent.prompt (acp lines 129-137): look the session up; unknown
id returns refusal without side effects; otherwise append the user message and
run the turn, which mutates only that session. The flag value left behind at
turn end is the `finalCancelled` oracle (concurrent cancels may have set it). -/
def prompt {σ : Type} (llm : σ → List Message → Bool → Except String LLMResponse × σ)
    (cB cA : Nat → Bool) (s0 : σ) (finalCancelled : Bool)
    (sessions : List (String × SessionState)) (sid : String) (text : String) :
    String × List (String × SessionState) :=
  match lookupAssoc sessions sid with
  | none => ("refusal", sessions)
  | some st =>
    let msgs := st.messages ++ [{ role := Role.user, content := text }]
    let res := runTurn llm st.tools cB cA st.maxSteps s0 msgs
    (res.stopReason,
     updateAssoc sessions sid
       { st with messages := res.messages, cancelled := finalCancelled })

/-- MiniMaxACPAgent.cancel (acp lines 139-142): set the flag when the session
exists; a no-op otherwise. -/
def cancel (sessions : List (String × SessionState)) (sid : String) :
    List (String × SessionState) :=
  match lookupAssoc sessions sid with
  | none => sessions
  | some st => updateAssoc sessions sid { st with cancelled := true }

/-- Typed content segments of the Anthropic-style wire format. -/
inductive ContentBlock where
  | text (s : String)
  | thinking (s : String)
  | tool_use (id : String) (name : String) (input : Args)
  | tool_result (tool_use_id : Option String) (content : String)
  deriving DecidableEq

/-- A backend message: either a plain text body or a list of typed segments. -/
inductive ApiContent where
  | plain (s : String)
  | blocks (bs : List ContentBlock)
  deriving DecidableEq

/-- One element of the backend request message list. -/
structure ApiMessage where
  role : String
  content : ApiContent
  deriving DecidableEq

/-- Truthiness of an optional string (Python: None and "" are falsy). -/
def optTruthy : Option String → Bool
  | some s => !(s == "")
  | none => false

/-- Truthiness of an optional tool-call list (None and [] are falsy). -/
def callsTruthy : Option (List ToolCall) → Bool
  | some l => !l.isEmpty
  | none => false

/-- Segment serialization of an assistant message carrying thinking and/or
tool calls (llm.py lines 108-132): thinking segment first if truthy, then a
text segment if the content is non-empty, then one tool_use segment per call
with the call id, tool name and argument mapping. -/
def assistantBlocks (msg : Message) : List ContentBlock :=
  (match msg.thinking with
   | some t => if t = "" then [] else [ContentBlock.thinking t]
   | none => []) ++
  (if msg.content = "" then [] else [ContentBlock.text msg.content]) ++
  (match msg.tool_calls with
   | some cs => cs.map (fun c => ContentBlock.tool_use c.id c.function.name c.function.arguments)
   | none => [])

/-- The conversation-to-request conversion loop of generate (llm.py lines
96-150): extract the system text, serialize assistant messages with thinking
or tool calls as segment lists, and serialize tool messages as user-role
turns carrying a single tool_result segment. -/
def toApiMessages (msgs : List Message) : Option String × List ApiMessage :=
  msgs.foldl
    (fun acc msg =>
      match msg.role with
      | Role.system => (some msg.content, acc.2)
      | Role.user => (acc.1, acc.2 ++ [⟨"user", ApiContent.plain msg.content⟩])
      | Role.assistant =>
        if optTruthy msg.thinking || callsTruthy msg.tool_calls then
          (acc.1, acc.2 ++ [⟨"assistant", ApiContent.blocks (assistantBlocks msg)⟩])
        else
          (acc.1, acc.2 ++ [⟨"assistant", ApiContent.plain msg.content⟩])
      | Role.tool =>
        (acc.1, acc.2 ++
          [⟨"user", ApiContent.blocks [ContentBlock.tool_result msg.tool_call_id msg.content]⟩]))
    (none, [])

/-- The response-content scan of generate (llm.py lines 182-202): concatenate
text segments, concatenate thinking segments, and collect tool_use segments
as ToolCalls in order; tool_result segments are ignored. -/
def parseBlocks : List ContentBlock → String × String × List ToolCall
  | [] => ("", "", [])
  | b :: rest =>
    let tail := parseBlocks rest
    match b with
    | ContentBlock.text s => (s ++ tail.1, tail.2.1, tail.2.2)
    | ContentBlock.thinking s => (tail.1, s ++ tail.2.1, tail.2.2)
    | ContentBlock.tool_use id nm input =>
      (tail.1, tail.2.1, ⟨id, "function", ⟨nm, input⟩⟩ :: tail.2.2)
    | ContentBlock.tool_result _ _ => tail

/-- Assembly of the LLMResponse from parsed segments (llm.py lines 204-209):
empty thinking becomes absent, an empty call list becomes absent, and the
stop reason defaults to "stop". -/
def parseResponse (blocks : List ContentBlock) (stop_reason : Option String) : LLMResponse :=
  let p := parseBlocks blocks
  { content := p.1,
    thinking := if p.2.1 = "" then none else some p.2.1,
    tool_calls := if p.2.2.isEmpty then none else some p.2.2,
    finish_reason := stop_reason.getD "stop" }

/-- MiniMax base_resp status envelope. -/
structure BaseResp where
  status_code : Option Int
  status_msg : Option String
  deriving DecidableEq

/-- The fields of a transport-level response body that the envelope check of
_make_api_request reads, plus the content payload it would hand to parsing. -/
structure ApiResult where
  type : Option String
  errorType : Option String
  errorMessage : Option String
  base_resp : Option BaseResp
  content : List ContentBlock
  stop_reason : Option String
  deriving DecidableEq

/-- Python f-string rendering of an optional string (None prints as None). -/
def optStr : Option String → String
  | some s => s
  | none => "None"

/-- Python f-string rendering of an optional integer. -/
def optIntStr : Option Int → String
  | some n => toString n
  | none => "None"

/-- The error-envelope gate of _make_api_request (llm.py lines 66-86): fail on
a generic error envelope, then on a base_resp status code outside the success
set {0, 1000, None} (with extra guidance for 1008 and 2013); otherwise return
the body unchanged for content parsing. -/
def checkApiResult (model : String) (r : ApiResult) : Except String ApiResult :=
  if r.type = some "error" then
    Except.error ("API Error (" ++ optStr r.errorType ++ "): " ++ optStr r.errorMessage)
  else
    match r.base_resp with
    | some br =>
      if br.status_code = some 0 ∨ br.status_code = some 1000 ∨ br.status_code = none then
        Except.ok r
      else
        let base := "MiniMax API Error (code " ++ optIntStr br.status_code ++ "): " ++
          optStr br.status_msg
        if br.status_code = some 1008 then
          Except.error (base ++ "\n\n⚠️  Insufficient account balance, please recharge on MiniMax platform")
        else if br.status_code = some 2013 then
          Except.error (base ++ "\n\n⚠️  Model \x27" ++ model ++ "\x27 is not supported")
        else
          Except.error base
    | none => Except.ok r

/-- Python str.lower (ASCII case folding, per-character). -/
def pyLower (s : String) : String := String.mk (s.data.map Char.toLower)

/-- needle occurs at the head of the list. -/
def startsWithList : List Char → List Char → Bool
  | [], _ => true
  | _ :: _, [] => false
  | a :: as, b :: bs => a == b && startsWithList as bs

/-- needle occurs somewhere in the list. -/
def occursIn (needle : List Char) : List Char → Bool
  | [] => needle.isEmpty
  | c :: cs => startsWithList needle (c :: cs) || occursIn needle cs

/-- Python substring containment: needle in hay. -/
def containsSub (hay needle : String) : Bool := occursIn needle.data hay.data

/-- last_user_text of _fake_response: the content of the most recent user
message (our conversations always hold string content). -/
def lastUserText (msgs : List Message) : String :=
  match msgs.reverse.find? (fun m => m.role == Role.user) with
  | some m => m.content
  | none => ""

/-- has_tool_result of _fake_response: some tool-role message names the tool. -/
def hasToolResult (msgs : List Message) (nm : String) : Bool :=
  msgs.any (fun m => m.role == Role.tool && m.name == some nm)

/-- The canned single tool call of _fake_response, with the counter bump. -/
def stubToolCall (counter : Nat) (nm : String) (arguments : Args) :
    List ToolCall × Nat :=
  ([⟨"stub-" ++ toString (counter + 1), "function", ⟨nm, arguments⟩⟩], counter + 1)

/-- LLMClient._fake_response (llm.py lines 211-268): deterministic offline
responses keyed on the lower-cased last user text; toolsTruthy is the
truthiness of the tool-schema list passed to generate. -/
def fakeResponse (counter : Nat) (msgs : List Message) (toolsTruthy : Bool) :
    LLMResponse × Nat :=
  let text := pyLower (lastUserText msgs)
  if containsSub text "say \x27hello, mini agent!\x27" || containsSub text "hello, mini agent" then
    ({ content := "Hello, Mini Agent!", thinking := none, tool_calls := none,
       finish_reason := "stop" }, counter)
  else if containsSub text "calculate 123 + 456" && toolsTruthy then
    let c := stubToolCall counter "calculator"
      [("operation", PyVal.str "add"), ("a", PyVal.int 123), ("b", PyVal.int 456)]
    ({ content := "", thinking := none, tool_calls := some c.1,
       finish_reason := "tool_use" }, c.2)
  else if containsSub text "test.txt" && containsSub text "hello from agent" then
    if hasToolResult msgs "write_file" then
      ({ content := "Created test.txt with the requested content.", thinking := none,
         tool_calls := none, finish_reason := "stop" }, counter)
    else
      let c := stubToolCall counter "write_file"
        [("path", PyVal.str "test.txt"), ("content", PyVal.str "Hello from Agent!")]
      ({ content := "", thinking := none, tool_calls := some c.1,
         finish_reason := "tool_use" }, c.2)
  else if containsSub text "list all files" && containsSub text "bash" then
    if hasToolResult msgs "bash" then
      ({ content := "Listed the files in the workspace.", thinking := none,
         tool_calls := none, finish_reason := "stop" }, counter)
    else
      let c := stubToolCall counter "bash"
        [("command", PyVal.str "ls"), ("timeout", PyVal.int 30),
         ("run_in_background", PyVal.bool false)]
      ({ content := "", thinking := none, tool_calls := some c.1,
         finish_reason := "tool_use" }, c.2)
  else
    let fallback := let t := lastUserText msgs; if t = "" then "Hello!" else t
    ({ content := "Stub response: " ++ fallback.trim, thinking := none,
       tool_calls := none, finish_reason := "stop" }, counter)

/-- generate in offline mode (llm.py line 94-95): the deterministic substitute
threaded through the fake-call counter; it never raises. -/
def offlineGenerate (counter : Nat) (msgs : List Message) (toolsTruthy : Bool) :
    Except String LLMResponse × Nat :=
  let p := fakeResponse counter msgs toolsTruthy
  (Except.ok p.1, p.2)

/-! Concrete material used to evaluate the development on closed inputs. -/

/-- A stand-in calculator execute function (tool bodies are collaborators). -/
def calcStub : ToolFn := fun _ => Except.ok ⟨true, "579", none⟩

/-- The offline calculator scenario prompt. -/
def calcPrompt : Message := { role := Role.user, content := "calculate 123 + 456" }

/-- A concrete tool call used in closed evaluations. -/
def wCall : ToolCall := ⟨"call-1", "function", ⟨"echo", [("x", PyVal.int 1)]⟩⟩

/-- A concrete model response carrying one tool call. -/
def wResp1 : LLMResponse :=
  { content := "ok", thinking := some "th", tool_calls := some [wCall],
    finish_reason := "tool_use" }

/-- A concrete model response with no tool calls. -/
def wRespDone : LLMResponse :=
  { content := "done", thinking := none, tool_calls := none, finish_reason := "stop" }

/-- A concrete model oracle: one tool-calling response, then a plain one. -/
def wLLM : Nat → List Message → Bool → Except String LLMResponse × Nat :=
  fun n _ _ => ((if n = 0 then Except.ok wResp1 else Except.ok wRespDone), n + 1)

/-- A concrete model oracle that always requests a tool call. -/
def wLLMLoop : Nat → List Message → Bool → Except String LLMResponse × Nat :=
  fun n _ _ => (Except.ok wResp1, n + 1)

/-- A concrete one-tool registry. -/
def wTools : List (String × ToolFn) := [("echo", fun _ => Except.ok ⟨true, "echoed", none⟩)]

/-- A concrete user message. -/
def wUser : Message := { role := Role.user, content := "hi" }

/-- A concrete tool whose execute always raises. -/
def boomTool : ToolFn := fun _ => Except.error "kaboom"

/-- A call to the raising tool. -/
def boomCall : ToolCall := ⟨"c2", "function", ⟨"boom", []⟩⟩

/-- A call to a name absent from the registry. -/
def fooCall : ToolCall := ⟨"c1", "function", ⟨"foo", []⟩⟩

/-- A 50-character string whose repr exceeds the truncation bound. -/
def longStr : String := String.mk (List.replicate 50 'x')

/-- A concrete session. -/
def wSession : SessionState :=
  { messages := [], tools := [], maxSteps := 1, cancelled := false }

/-- A concrete two-session map. -/
def wSessions : List (String × SessionState) := [("a", wSession), ("b", wSession)]

/-! Branch equations of the step loop, used throughout the proofs below. -/

/-- Checkpoint 1: a set cancellation flag before the model call ends the step
loop with no model call, no update and no message appended. -/
theorem runTurnLoop_cancelB {σ : Type}
    (llm : σ → List Message → Bool → Except String LLMResponse × σ)
    (tools : List (String × ToolFn)) (cB cA : Nat → Bool)
    (fuel step : Nat) (s : σ) (msgs : List Message) (hb : cB step = true) :
    runTurnLoop llm tools cB cA (fuel + 1) step s msgs =
      { stopReason := "cancelled", messages := msgs, updates := [],
        llmInputs := [], llmOutputs := [], invoked := [] } := by
  simp [runTurnLoop, hb]

/-- A model-call failure terminates the turn with refusal after emitting a
single error-content update. -/
theorem runTurnLoop_error {σ : Type}
    (llm : σ → List Message → Bool → Except String LLMResponse × σ)
    (tools : List (String × ToolFn)) (cB cA : Nat → Bool)
    (fuel step : Nat) (s s2 : σ) (msgs : List Message) (e : String)
    (hb : cB step = false) (hllm : llm s msgs (!tools.isEmpty) = (Except.error e, s2)) :
    runTurnLoop llm tools cB cA (fuel + 1) step s msgs =
      { stopReason := "refusal", messages := msgs,
        updates := [Update.errorMessage ("Error: " ++ e)],
        llmInputs := [msgs], llmOutputs := [Except.error e], invoked := [] } := by
  simp [runTurnLoop, hb, hllm]

/-- Checkpoint 2: a set cancellation flag after the model call ends the step
loop before any update is emitted or any message is appended. -/
theorem runTurnLoop_cancelA {σ : Type}
    (llm : σ → List Message → Bool → Except String LLMResponse × σ)
    (tools : List (String × ToolFn)) (cB cA : Nat → Bool)
    (fuel step : Nat) (s s2 : σ) (msgs : List Message) (r : LLMResponse)
    (hb : cB step = false) (hllm : llm s msgs (!tools.isEmpty) = (Except.ok r, s2))
    (ha : cA step = true) :
    runTurnLoop llm tools cB cA (fuel + 1) step s msgs =
      { stopReason := "cancelled", messages := msgs, updates := [],
        llmInputs := [msgs], llmOutputs := [Except.ok r], invoked := [] } := by
  simp [runTurnLoop, hb, hllm, ha]

/-- A response with no tool calls (absent list) terminates with end_turn after
appending the assistant message. -/
theorem runTurnLoop_end_none {σ : Type}
    (llm : σ → List Message → Bool → Except String LLMResponse × σ)
    (tools : List (String × ToolFn)) (cB cA : Nat → Bool)
    (fuel step : Nat) (s s2 : σ) (msgs : List Message) (r : LLMResponse)
    (hb : cB step = false) (hllm : llm s msgs (!tools.isEmpty) = (Except.ok r, s2))
    (ha : cA step = false) (hcs : r.tool_calls = none) :
    runTurnLoop llm tools cB cA (fuel + 1) step s msgs =
      { stopReason := "end_turn", messages := msgs ++ [assistantOf r],
        updates := thinkUpdates r ++ contentUpdates r,
        llmInputs := [msgs], llmOutputs := [Except.ok r], invoked := [] } := by
  simp [runTurnLoop, hb, hllm, ha, hcs]

/-- A response with an empty tool-call list also terminates with end_turn. -/
theorem runTurnLoop_end_empty {σ : Type}
    (llm : σ → List Message → Bool → Except String LLMResponse × σ)
    (tools : List (String × ToolFn)) (cB cA : Nat → Bool)
    (fuel step : Nat) (s s2 : σ) (msgs : List Message) (r : LLMResponse)
    (hb : cB step = false) (hllm : llm s msgs (!tools.isEmpty) = (Except.ok r, s2))
    (ha : cA step = false) (hcs : r.tool_calls = some []) :
    runTurnLoop llm tools cB cA (fuel + 1) step s msgs =
      { stopReason := "end_turn", messages := msgs ++ [assistantOf r],
        updates := thinkUpdates r ++ contentUpdates r,
        llmInputs := [msgs], llmOutputs := [Except.ok r], invoked := [] } := by
  simp [runTurnLoop, hb, hllm, ha, hcs]

/-- A response with a non-empty tool-call list dispatches every call and
continues into the next step of the loop. -/
theorem runTurnLoop_continue {σ : Type}
    (llm : σ → List Message → Bool → Except String LLMResponse × σ)
    (tools : List (String × ToolFn)) (cB cA : Nat → Bool)
    (fuel step : Nat) (s s2 : σ) (msgs : List Message) (r : LLMResponse)
    (cs : List ToolCall)
    (hb : cB step = false) (hllm : llm s msgs (!tools.isEmpty) = (Except.ok r, s2))
    (ha : cA step = false) (hcs : r.tool_calls = some cs) (hne : cs ≠ []) :
    runTurnLoop llm tools cB cA (fuel + 1) step s msgs =
      { stopReason := (runTurnLoop llm tools cB cA fuel (step + 1) s2
          (msgs ++ [assistantOf r] ++ (runCalls tools cs).1)).stopReason,
        messages := (runTurnLoop llm tools cB cA fuel (step + 1) s2
          (msgs ++ [assistantOf r] ++ (runCalls tools cs).1)).messages,
        updates := thinkUpdates r ++ contentUpdates r ++ (runCalls tools cs).2.1 ++
          (runTurnLoop llm tools cB cA fuel (step + 1) s2
            (msgs ++ [assistantOf r] ++ (runCalls tools cs).1)).updates,
        llmInputs := msgs :: (runTurnLoop llm tools cB cA fuel (step + 1) s2
          (msgs ++ [assistantOf r] ++ (runCalls tools cs).1)).llmInputs,
        llmOutputs := Except.ok r :: (runTurnLoop llm tools cB cA fuel (step + 1) s2
          (msgs ++ [assistantOf r] ++ (runCalls tools cs).1)).llmOutputs,
        invoked := (runCalls tools cs).2.2 ++ (runTurnLoop llm tools cB cA fuel (step + 1) s2
          (msgs ++ [assistantOf r] ++ (runCalls tools cs).1)).invoked } := by
  have hne2 : cs.isEmpty = false := by
    cases cs with
    | nil => exact absurd rfl hne
    | cons a l => rfl
  simp [runTurnLoop, hb, hllm, ha, hcs, hne2]

/-- The dispatch loop builds exactly one tool-role message per call, in call
order, each carrying the call's correlation id and tool name. -/
theorem runCalls_fst (tools : List (String × ToolFn)) :
    ∀ cs : List ToolCall, (runCalls tools cs).1 = cs.map (toolMsgOf tools) := by
  intro cs
  induction cs with
  | nil => rfl
  | cons c rest ih => simp [runCalls, ih]

/-- Whenever a turn records at least one model call, the first recorded
conversation is the conversation the loop was started with. -/
theorem runTurnLoop_firstInput {σ : Type}
    (llm : σ → List Message → Bool → Except String LLMResponse × σ)
    (tools : List (String × ToolFn)) (cB cA : Nat → Bool) :
    ∀ (fuel step : Nat) (s : σ) (msgs conv : List Message),
      (runTurnLoop llm tools cB cA fuel step s msgs).llmInputs.get? 0 = some conv →
      conv = msgs := by
  intro fuel step s msgs conv h
  match fuel with
  | 0 => simp [runTurnLoop] at h
  | fuel + 1 =>
    by_cases hb : cB step
    · rw [runTurnLoop_cancelB llm tools cB cA fuel step s msgs hb] at h
      simp at h
    · rw [Bool.not_eq_true] at hb
      rcases hllm : llm s msgs (!tools.isEmpty) with ⟨out, s2⟩
      cases out with
      | error e =>
        rw [runTurnLoop_error llm tools cB cA fuel step s s2 msgs e hb hllm] at h
        simp at h
        exact h.symm
      | ok r =>
        by_cases ha : cA step
        · rw [runTurnLoop_cancelA llm tools cB cA fuel step s s2 msgs r hb hllm ha] at h
          simp at h
          exact h.symm
        · rw [Bool.not_eq_true] at ha
          cases hcs : r.tool_calls with
          | none =>
            rw [runTurnLoop_end_none llm tools cB cA fuel step s s2 msgs r hb hllm ha hcs] at h
            simp at h
            exact h.symm
          | some cs =>
            cases cs with
            | nil =>
              rw [runTurnLoop_end_empty llm tools cB cA fuel step s s2 msgs r hb hllm ha hcs] at h
              simp at h
              exact h.symm
            | cons c rest =>
              rw [runTurnLoop_continue llm tools cB cA fuel step s s2 msgs r (c :: rest)
                hb hllm ha hcs (by simp)] at h
              simp at h
              exact h.symm

/-- Whenever the i-th model call of a turn returns tool calls and an (i+1)-th
model call is issued, the conversation given to the (i+1)-th call is the
i-th conversation extended by the assistant message and one tool-role message
per call, in call order. -/
theorem runTurnLoop_toolAppends {σ : Type}
    (llm : σ → List Message → Bool → Except String LLMResponse × σ)
    (tools : List (String × ToolFn)) (cB cA : Nat → Bool) :
    ∀ (fuel step : Nat) (s : σ) (msgs : List Message) (i : Nat)
      (conv conv2 : List Message) (r : LLMResponse) (cs : List ToolCall),
      (runTurnLoop llm tools cB cA fuel step s msgs).llmInputs.get? i = some conv →
      (runTurnLoop llm tools cB cA fuel step s msgs).llmOutputs.get? i = some (Except.ok r) →
      r.tool_calls = some cs → cs ≠ [] →
      (runTurnLoop llm tools cB cA fuel step s msgs).llmInputs.get? (i + 1) = some conv2 →
      conv2 = conv ++ [assistantOf r] ++ cs.map (toolMsgOf tools) := by
  intro fuel
  induction fuel with
  | zero =>
    intro step s msgs i conv conv2 r cs h1 h2 h3 h4 h5
    simp [runTurnLoop] at h1
  | succ fuel ih =>
    intro step s msgs i conv conv2 r cs h1 h2 h3 h4 h5
    by_cases hb : cB step
    · rw [runTurnLoop_cancelB llm tools cB cA fuel step s msgs hb] at h1
      simp at h1
    · rw [Bool.not_eq_true] at hb
      rcases hllm : llm s msgs (!tools.isEmpty) with ⟨out, s2⟩
      cases out with
      | error e =>
        rw [runTurnLoop_error llm tools cB cA fuel step s s2 msgs e hb hllm] at h2
        cases i with
        | zero => simp at h2
        | succ j => simp at h2
      | ok r0 =>
        by_cases ha : cA step
        · rw [runTurnLoop_cancelA llm tools cB cA fuel step s s2 msgs r0 hb hllm ha] at h5
          cases i with
          | zero => simp at h5
          | succ j => simp at h5
        · rw [Bool.not_eq_true] at ha
          cases hcs0 : r0.tool_calls with
          | none =>
            rw [runTurnLoop_end_none llm tools cB cA fuel step s s2 msgs r0 hb hllm ha hcs0] at h5
            cases i with
            | zero => simp at h5
            | succ j => simp at h5
          | some cs0 =>
            cases cs0 with
            | nil =>
              rw [runTurnLoop_end_empty llm tools cB cA fuel step s s2 msgs r0 hb hllm ha hcs0] at h5
              cases i with
              | zero => simp at h5
              | succ j => simp at h5
            | cons c rest0 =>
              rw [runTurnLoop_continue llm tools cB cA fuel step s s2 msgs r0 (c :: rest0)
                hb hllm ha hcs0 (by simp)] at h1 h2 h5
              cases i with
              | zero =>
                simp only [List.get?_cons_zero, Option.some.injEq] at h1 h2
                have hr : r0 = r := by injection h2
                have hcs : (c :: rest0) = cs := by
                  have := hcs0
                  rw [hr, h3] at this
                  exact (Option.some.injEq _ _).mp this.symm
                simp only [List.get?_cons_succ] at h5
                have hconv2 := runTurnLoop_firstInput llm tools cB cA fuel (step + 1) s2
                  (msgs ++ [assistantOf r0] ++ (runCalls tools (c :: rest0)).1) conv2 h5
                rw [hconv2, runCalls_fst, ← h1, hr, hcs]
              | succ j =>
                simp only [List.get?_cons_succ] at h1 h2 h5
                exact ih (step + 1) s2 (msgs ++ [assistantOf r0] ++ (runCalls tools (c :: rest0)).1)
                  j conv conv2 r cs h1 h2 h3 h4 h5

/-- Under oracles that never report cancellation and a model that always
returns tool calls and never fails, the loop consumes its whole budget: it
issues exactly `fuel` model calls and stops with max_turn_requests. -/
theorem runTurnLoop_exhaust {σ : Type}
    (llm : σ → List Message → Bool → Except String LLMResponse × σ)
    (tools : List (String × ToolFn)) (cB cA : Nat → Bool)
    (h1 : ∀ i, cB i = false) (h2 : ∀ i, cA i = false)
    (h3 : ∀ (s : σ) (msgs : List Message), ∃ r s2,
      llm s msgs (!tools.isEmpty) = (Except.ok r, s2) ∧ callsTruthy r.tool_calls = true) :
    ∀ (fuel step : Nat) (s : σ) (msgs : List Message),
      (runTurnLoop llm tools cB cA fuel step s msgs).stopReason = "max_turn_requests" ∧
      (runTurnLoop llm tools cB cA fuel step s msgs).llmInputs.length = fuel := by
  intro fuel
  induction fuel with
  | zero => intro step s msgs; exact ⟨rfl, rfl⟩
  | succ fuel ih =>
    intro step s msgs
    rcases h3 s msgs with ⟨r, s2, hllm, htr⟩
    rcases hcs : r.tool_calls with _ | cs
    · rw [hcs] at htr; simp [callsTruthy] at htr
    · cases cs with
      | nil => rw [hcs] at htr; simp [callsTruthy] at htr
      | cons c rest0 =>
        rw [runTurnLoop_continue llm tools cB cA fuel step s s2 msgs r (c :: rest0)
          (h1 step) hllm (h2 step) hcs (by simp)]
        have := ih (step + 1) s2 (msgs ++ [assistantOf r] ++ (runCalls tools (c :: rest0)).1)
        refine ⟨this.1, ?_⟩
        simp only [List.length_cons]
        rw [this.2]

/-- Updating the value at one key leaves lookups of every other key alone. -/
theorem lookupAssoc_updateAssoc_ne {α : Type} :
    ∀ (l : List (String × α)) (k k2 : String) (v : α), k2 ≠ k →
      lookupAssoc (updateAssoc l k v) k2 = lookupAssoc l k2 := by
  intro l k k2 v hne
  induction l with
  | nil => rfl
  | cons kv rest ih =>
    rcases kv with ⟨a, b⟩
    by_cases hak : a = k
    · subst hak
      simp only [updateAssoc, if_pos rfl]
      have hak2 : ¬ a = k2 := fun h => hne h.symm
      simp [lookupAssoc, hak2]
    · simp only [updateAssoc, if_neg hak]
      by_cases hak2 : a = k2
      · simp [lookupAssoc, hak2]
      · simp [lookupAssoc, hak2, ih]

/-- Updating a value never changes the key structure of the map. -/
theorem map_fst_updateAssoc {α : Type} :
    ∀ (l : List (String × α)) (k : String) (v : α),
      (updateAssoc l k v).map Prod.fst = l.map Prod.fst := by
  intro l k v
  induction l with
  | nil => rfl
  | cons kv rest ih =>
    rcases kv with ⟨a, b⟩
    by_cases hak : a = k
    · simp [updateAssoc, hak]
    · simp [updateAssoc, hak, ih]

/-- The part-collecting loop of _format_tool_args keeps exactly the first
(3 - n) entries once n parts have already been collected. -/
theorem collectParts_take :
    ∀ (args : List (String × PyVal)) (n : Nat), n < 3 →
      collectParts args n = (args.take (3 - n)).map mkPart := by
  intro args
  induction args with
  | nil => intro n _; simp [collectParts]
  | cons kv rest ih =>
    intro n hn
    by_cases h3 : n + 1 = 3
    · have : 3 - n = 1 := by omega
      simp [collectParts, h3, this]
    · have hlt : n + 1 < 3 := by omega
      have : 3 - n = (3 - (n + 1)) + 1 := by omega
      simp [collectParts, h3, this, ih (n + 1) hlt]

/-- The truncated rendering of any argument value never exceeds 48 chars. -/
theorem truncVal_length_le (v : PyVal) : (truncVal v).length ≤ 48 := by
  unfold truncVal
  by_cases h : 48 < (pyRepr v).length
  · have hlen : (pyRepr v).data.length = (pyRepr v).length := rfl
    have hd : 45 ≤ (pyRepr v).data.length := by omega
    simp only [if_pos h, strTake, String.length_append, String.length_mk,
      List.length_take, Nat.min_eq_left hd]
    decide
  · simp only [if_neg h]
    omega

/-- The argument summary of a single-entry mapping. -/
theorem formatToolArgs_single (k : String) (v : PyVal) :
    formatToolArgs [(k, v)] = k ++ "=" ++ truncVal v := by
  simp [formatToolArgs, collectParts, mkPart, joinParts]

/-- C1: in every turn, each step whose model response carries a non-empty
tool-call list appends exactly one tool-role Message per ToolCall, in the
order received, each carrying that call's correlation id and tool name
(shape of the dispatch loop output), and all of these appends land in the
conversation before the next step's model call is issued (the (i+1)-th
recorded model-call input is the i-th input plus the assistant message plus
exactly the per-call tool messages). -/
theorem c1_tool_result_messages {σ : Type}
    (llm : σ → List Message → Bool → Except String LLMResponse × σ)
    (tools : List (String × ToolFn)) (cB cA : Nat → Bool)
    (fuel step : Nat) (s : σ) (msgs : List Message) :
    (∀ cs : List ToolCall, (runCalls tools cs).1 = cs.map (toolMsgOf tools)) ∧
    (∀ (i : Nat) (conv conv2 : List Message) (r : LLMResponse) (cs : List ToolCall),
      (runTurnLoop llm tools cB cA fuel step s msgs).llmInputs.get? i = some conv →
      (runTurnLoop llm tools cB cA fuel step s msgs).llmOutputs.get? i = some (Except.ok r) →
      r.tool_calls = some cs → cs ≠ [] →
      (runTurnLoop llm tools cB cA fuel step s msgs).llmInputs.get? (i + 1) = some conv2 →
      conv2 = conv ++ [assistantOf r] ++ cs.map (toolMsgOf tools)) :=
  ⟨runCalls_fst tools,
   fun i conv conv2 r cs h1 h2 h3 h4 h5 =>
     runTurnLoop_toolAppends llm tools cB cA fuel step s msgs i conv conv2 r cs h1 h2 h3 h4 h5⟩

/-- Witness for C1 on a concrete two-step turn. -/
theorem c1_witness :
    ([wUser, assistantOf wResp1, toolMsgOf wTools wCall] : List Message) =
      [wUser] ++ [assistantOf wResp1] ++ [wCall].map (toolMsgOf wTools) :=
  (c1_tool_result_messages wLLM wTools (fun _ => false) (fun _ => false) 3 0 0 [wUser]).2
    0 [wUser] [wUser, assistantOf wResp1, toolMsgOf wTools wCall] wResp1 [wCall]
    (by decide) (by decide) rfl (by decide) (by decide)

/-- C2: if the cancellation flag reads true at the checkpoint before the
model call, or at the checkpoint after the model call returns, the turn
terminates with stop reason cancelled, no assistant Message is appended for
that step (messages are returned unchanged) and no thought or message
streaming update is emitted for that step (the update list is empty). -/
theorem c2_cancellation_checkpoints {σ : Type}
    (llm : σ → List Message → Bool → Except String LLMResponse × σ)
    (tools : List (String × ToolFn)) (cB cA : Nat → Bool)
    (fuel step : Nat) (s : σ) (msgs : List Message) :
    (cB step = true →
      runTurnLoop llm tools cB cA (fuel + 1) step s msgs =
        { stopReason := "cancelled", messages := msgs, updates := [],
          llmInputs := [], llmOutputs := [], invoked := [] }) ∧
    (∀ (r : LLMResponse) (s2 : σ),
      cB step = false → llm s msgs (!tools.isEmpty) = (Except.ok r, s2) → cA step = true →
      runTurnLoop llm tools cB cA (fuel + 1) step s msgs =
        { stopReason := "cancelled", messages := msgs, updates := [],
          llmInputs := [msgs], llmOutputs := [Except.ok r], invoked := [] }) :=
  ⟨fun hb => runTurnLoop_cancelB llm tools cB cA fuel step s msgs hb,
   fun r s2 hb hllm ha => runTurnLoop_cancelA llm tools cB cA fuel step s s2 msgs r hb hllm ha⟩

/-- Witness for C2 at both checkpoints on concrete turns. -/
theorem c2_witness :
    runTurnLoop wLLM wTools (fun _ => true) (fun _ => false) 1 0 0 [wUser] =
      { stopReason := "cancelled", messages := [wUser], updates := [],
        llmInputs := [], llmOutputs := [], invoked := [] } ∧
    runTurnLoop wLLM wTools (fun _ => false) (fun _ => true) 1 0 0 [wUser] =
      { stopReason := "cancelled", messages := [wUser], updates := [],
        llmInputs := [[wUser]], llmOutputs := [Except.ok wResp1], invoked := [] } :=
  ⟨(c2_cancellation_checkpoints wLLM wTools (fun _ => true) (fun _ => false) 0 0 0 [wUser]).1 rfl,
   (c2_cancellation_checkpoints wLLM wTools (fun _ => false) (fun _ => true) 0 0 0 [wUser]).2
     wResp1 1 rfl rfl rfl⟩

/-- C3: a turn whose step bound is N, whose model calls all succeed with a
non-empty tool-call list, and in which no cancellation is ever observed,
issues exactly N model calls and terminates with max_turn_requests. -/
theorem c3_step_budget_exhaustion {σ : Type}
    (llm : σ → List Message → Bool → Except String LLMResponse × σ)
    (tools : List (String × ToolFn)) (cB cA : Nat → Bool)
    (h1 : ∀ i, cB i = false) (h2 : ∀ i, cA i = false)
    (h3 : ∀ (s : σ) (msgs : List Message), ∃ r s2,
      llm s msgs (!tools.isEmpty) = (Except.ok r, s2) ∧ callsTruthy r.tool_calls = true)
    (N : Nat) (hN : 1 ≤ N) (s0 : σ) (msgs : List Message) :
    (runTurn llm tools cB cA N s0 msgs).stopReason = "max_turn_requests" ∧
    (runTurn llm tools cB cA N s0 msgs).llmInputs.length = N :=
  runTurnLoop_exhaust llm tools cB cA h1 h2 h3 N 0 s0 msgs

/-- Witness for C3 with budget 2 and a model that always requests a tool. -/
theorem c3_witness :
    (runTurn wLLMLoop wTools (fun _ => false) (fun _ => false) 2 0 []).stopReason =
      "max_turn_requests" ∧
    (runTurn wLLMLoop wTools (fun _ => false) (fun _ => false) 2 0 []).llmInputs.length = 2 :=
  c3_step_budget_exhaustion wLLMLoop wTools (fun _ => false) (fun _ => false)
    (fun _ => rfl) (fun _ => rfl) (fun s _ => ⟨wResp1, s + 1, rfl, rfl⟩) 2 (by decide) 0 []

/-- C4: prompting an unknown session id returns refusal with every session's
state and the session map unchanged, and cancel on an unknown id is a no-op. -/
theorem c4_unknown_session {σ : Type}
    (llm : σ → List Message → Bool → Except String LLMResponse × σ)
    (cB cA : Nat → Bool) (s0 : σ) (fc : Bool)
    (sessions : List (String × SessionState)) (sid text : String)
    (h : lookupAssoc sessions sid = none) :
    prompt llm cB cA s0 fc sessions sid text = ("refusal", sessions) ∧
    cancel sessions sid = sessions := by
  constructor
  · simp [prompt, h]
  · simp [cancel, h]

/-- Witness for C4 on a concrete two-session map and an unknown id. -/
theorem c4_witness :
    prompt wLLM (fun _ => false) (fun _ => false) 0 false wSessions "zzz" "hi" =
      ("refusal", wSessions) ∧
    cancel wSessions "zzz" = wSessions :=
  c4_unknown_session wLLM (fun _ => false) (fun _ => false) 0 false wSessions "zzz" "hi" rfl

/-- C5 as frozen is refuted on the text: dispatching a call to a name absent
from the registry produces the text Unknown tool: name, not the claimed
lower-case colon-free form. -/
theorem c5_counterexample :
    (dispatchResult [] fooCall).2.1 = "Unknown tool: foo" ∧
    ¬ (dispatchResult [] fooCall).2.1 = "unknown tool foo" := by
  exact ⟨by decide, by decide⟩

/-- C5 (amended): an unknown tool name yields a failed result with text
Unknown tool: name and no tool is invoked; a raising execute is caught and
converted to a failed result carrying the failure text; and in neither case
does the turn terminate: a step whose response carries tool calls always
continues into the next loop iteration, whatever the dispatch outcomes. -/
theorem c5_dispatch_contract (tools : List (String × ToolFn)) (c : ToolCall) :
    (lookupAssoc tools c.function.name = none →
      dispatchResult tools c = ("failed", "Unknown tool: " ++ c.function.name, [])) ∧
    (∀ (f : ToolFn) (e : String),
      lookupAssoc tools c.function.name = some f →
      f c.function.arguments = Except.error e →
      dispatchResult tools c =
        ("failed", "Tool error: " ++ e, [(c.function.name, c.function.arguments)])) ∧
    (∀ (σ : Type) (llm : σ → List Message → Bool → Except String LLMResponse × σ)
      (cB cA : Nat → Bool) (fuel step : Nat) (s s2 : σ) (msgs : List Message)
      (r : LLMResponse) (cs : List ToolCall),
      cB step = false → llm s msgs (!tools.isEmpty) = (Except.ok r, s2) → cA step = false →
      r.tool_calls = some cs → cs ≠ [] →
      (runTurnLoop llm tools cB cA (fuel + 1) step s msgs).stopReason =
        (runTurnLoop llm tools cB cA fuel (step + 1) s2
          (msgs ++ [assistantOf r] ++ (runCalls tools cs).1)).stopReason) := by
  refine ⟨fun h => ?_, fun f e hf he => ?_, ?_⟩
  · simp [dispatchResult, h]
  · simp [dispatchResult, hf, he]
  · intro σ llm cB cA fuel step s s2 msgs r cs hb hllm ha hcs hne
    rw [runTurnLoop_continue llm tools cB cA fuel step s s2 msgs r cs hb hllm ha hcs hne]

/-- Witness for C5 on an absent name, a raising tool, and a continuing step. -/
theorem c5_witness :
    dispatchResult wTools fooCall = ("failed", "Unknown tool: " ++ "foo", []) ∧
    dispatchResult [("boom", boomTool)] boomCall =
      ("failed", "Tool error: " ++ "kaboom", [("boom", [])]) ∧
    (runTurnLoop wLLM wTools (fun _ => false) (fun _ => false) 1 0 0 [wUser]).stopReason =
      (runTurnLoop wLLM wTools (fun _ => false) (fun _ => false) 0 1 1
        ([wUser] ++ [assistantOf wResp1] ++ (runCalls wTools [wCall]).1)).stopReason :=
  ⟨(c5_dispatch_contract wTools fooCall).1 rfl,
   (c5_dispatch_contract [("boom", boomTool)] boomCall).2.1 boomTool "kaboom" rfl rfl,
   (c5_dispatch_contract wTools wCall).2.2 Nat wLLM (fun _ => false) (fun _ => false)
     0 0 0 1 [wUser] wResp1 [wCall] rfl rfl rfl rfl (by decide)⟩

/-- C6: serializing an assistant Message with (non-empty) thinking text,
content text and one tool call into backend content segments, then parsing a
backend response carrying those same segments, returns the original thinking
text, content text, and the tool call's id, name and arguments unchanged. -/
theorem c6_segment_roundtrip (c t : String) (tc : ToolCall) (ht : ¬ t = "") :
    (parseResponse (assistantBlocks
        { role := Role.assistant, content := c, thinking := some t,
          tool_calls := some [tc] }) (some "tool_use")).thinking = some t ∧
    (parseResponse (assistantBlocks
        { role := Role.assistant, content := c, thinking := some t,
          tool_calls := some [tc] }) (some "tool_use")).content = c ∧
    (parseResponse (assistantBlocks
        { role := Role.assistant, content := c, thinking := some t,
          tool_calls := some [tc] }) (some "tool_use")).tool_calls =
      some [⟨tc.id, "function", ⟨tc.function.name, tc.function.arguments⟩⟩] := by
  by_cases hc : c = ""
  · subst hc
    simp [assistantBlocks, parseResponse, parseBlocks, ht]
  · simp [assistantBlocks, parseResponse, parseBlocks, ht, hc]

/-- Witness for C6 on a concrete assistant message. -/
theorem c6_witness :
    (parseResponse (assistantBlocks
        { role := Role.assistant, content := "ok", thinking := some "th",
          tool_calls := some [wCall] }) (some "tool_use")).thinking = some "th" ∧
    (parseResponse (assistantBlocks
        { role := Role.assistant, content := "ok", thinking := some "th",
          tool_calls := some [wCall] }) (some "tool_use")).content = "ok" ∧
    (parseResponse (assistantBlocks
        { role := Role.assistant, content := "ok", thinking := some "th",
          tool_calls := some [wCall] }) (some "tool_use")).tool_calls =
      some [⟨wCall.id, "function", ⟨wCall.function.name, wCall.function.arguments⟩⟩] :=
  c6_segment_roundtrip "ok" "th" wCall (by decide)

/-- C7: the request method fails with a descriptive error, before any content
parsing, exactly when the body is a generic error envelope (type = error) or
carries a base_resp whose status code is non-success (not 0, not 1000) and
non-null; otherwise the body is returned for parsing unchanged. -/
theorem c7_error_envelope (model : String) (r : ApiResult) :
    ((r.type = some "error" ∨
      ∃ br, r.base_resp = some br ∧ br.status_code ≠ some 0 ∧
        br.status_code ≠ some 1000 ∧ br.status_code ≠ none) →
      ∃ e, checkApiResult model r = Except.error e) ∧
    (¬ r.type = some "error" →
      (∀ br, r.base_resp = some br →
        br.status_code = some 0 ∨ br.status_code = some 1000 ∨ br.status_code = none) →
      checkApiResult model r = Except.ok r) := by
  constructor
  · intro h
    by_cases ht : r.type = some "error"
    · simp only [checkApiResult, if_pos ht]
      exact ⟨_, rfl⟩
    · rcases h with h | ⟨br, hbr, h0, h1000, hnone⟩
      · exact absurd h ht
      · have hcond : ¬ (br.status_code = some 0 ∨ br.status_code = some 1000 ∨
            br.status_code = none) := by
          rintro (hx | hx | hx)
          · exact h0 hx
          · exact h1000 hx
          · exact hnone hx
        by_cases ha : br.status_code = some 1008
        · simp only [checkApiResult, if_neg ht, hbr, if_neg hcond, if_pos ha]
          exact ⟨_, rfl⟩
        · by_cases hb2 : br.status_code = some 2013
          · simp only [checkApiResult, if_neg ht, hbr, if_neg hcond, if_neg ha, if_pos hb2]
            exact ⟨_, rfl⟩
          · simp only [checkApiResult, if_neg ht, hbr, if_neg hcond, if_neg ha, if_neg hb2]
            exact ⟨_, rfl⟩
  · intro ht hall
    cases hbr : r.base_resp with
    | none => simp [checkApiResult, ht, hbr]
    | some br => simp [checkApiResult, ht, hbr, hall br hbr]

/-- Witness for C7: a generic error envelope fails; a clean body passes. -/
theorem c7_witness :
    (∃ e, checkApiResult "MiniMax-M2"
      { type := some "error", errorType := some "bad", errorMessage := some "boom",
        base_resp := none, content := [], stop_reason := none } = Except.error e) ∧
    checkApiResult "MiniMax-M2"
      { type := none, errorType := none, errorMessage := none,
        base_resp := some { status_code := some 0, status_msg := none },
        content := [], stop_reason := some "stop" } = Except.ok
      { type := none, errorType := none, errorMessage := none,
        base_resp := some { status_code := some 0, status_msg := none },
        content := [], stop_reason := some "stop" } :=
  ⟨(c7_error_envelope "MiniMax-M2" _).1 (Or.inl rfl),
   (c7_error_envelope "MiniMax-M2" _).2 (by decide)
     (fun br hbr => by injection hbr with h; rw [← h]; exact Or.inl rfl)⟩

/-- C8 (code bug): in offline mode, prompting a session whose last user
message is calculate 123 + 456 with a calculator tool available does yield
exactly one calculator tool call with arguments operation=add, a=123, b=456
on the first step, as claimed; but the next step does not terminate with
end_turn: the calculator branch of _fake_response lacks the has_tool_result
guard its write_file and bash siblings have, so every subsequent step issues
another calculator call and a 2-step turn terminates with max_turn_requests. -/
theorem c8_offline_calculator_loop :
    (runTurn offlineGenerate [("calculator", calcStub)] (fun _ => false) (fun _ => false)
        2 0 [calcPrompt]).llmOutputs.get? 0 = some (Except.ok
      { content := "", thinking := none,
        tool_calls := some [⟨"stub-1", "function", ⟨"calculator",
          [("operation", PyVal.str "add"), ("a", PyVal.int 123), ("b", PyVal.int 456)]⟩⟩],
        finish_reason := "tool_use" }) ∧
    (runTurn offlineGenerate [("calculator", calcStub)] (fun _ => false) (fun _ => false)
        2 0 [calcPrompt]).llmOutputs.get? 1 = some (Except.ok
      { content := "", thinking := none,
        tool_calls := some [⟨"stub-2", "function", ⟨"calculator",
          [("operation", PyVal.str "add"), ("a", PyVal.int 123), ("b", PyVal.int 456)]⟩⟩],
        finish_reason := "tool_use" }) ∧
    (runTurn offlineGenerate [("calculator", calcStub)] (fun _ => false) (fun _ => false)
        2 0 [calcPrompt]).stopReason = "max_turn_requests" ∧
    ¬ (runTurn offlineGenerate [("calculator", calcStub)] (fun _ => false) (fun _ => false)
        2 0 [calcPrompt]).stopReason = "end_turn" := by
  refine ⟨?_, ?_, ?_, ?_⟩ <;> decide

/-- C9 as frozen is refuted: the label's argument summary is not bounded
regardless of the input mapping, because argument keys are rendered in full;
a single entry with a long enough key exceeds any proposed bound. -/
theorem c9_counterexample :
    ¬ ∃ B : Nat, ∀ args : Args, (formatToolArgs args).length ≤ B := by
  rintro ⟨B, hB⟩
  have h := hB [(String.mk (List.replicate (B + 1) 'a'), PyVal.int 0)]
  rw [formatToolArgs_single] at h
  simp only [String.length_append, String.length_mk, List.length_replicate] at h
  omega

/-- C9 (amended): the summary renders at most 3 arguments (the collected
parts are exactly the first three entries), and each argument value's
rendering is truncated once it exceeds 48 characters, cut to 45 characters
plus an ellipsis; this bounds the value portions of the summary, while keys
are rendered in full. -/
theorem c9_argument_truncation (args : Args) :
    formatToolArgs args = (if args.isEmpty then "" else joinParts (collectParts args 0)) ∧
    collectParts args 0 = (args.take 3).map mkPart ∧
    (collectParts args 0).length ≤ 3 ∧
    (∀ v : PyVal, (truncVal v).length ≤ 48) ∧
    (∀ v : PyVal, 48 < (pyRepr v).length →
      truncVal v = strTake (pyRepr v) 45 ++ "...") := by
  have htake := collectParts_take args 0 (by omega)
  refine ⟨rfl, by simpa using htake, ?_, truncVal_length_le, ?_⟩
  · rw [htake]
    simp only [List.length_map, List.length_take]
    omega
  · intro v hv
    simp [truncVal, hv]

/-- Witness for C9 on a long string value. -/
theorem c9_witness :
    48 < (pyRepr (PyVal.str longStr)).length ∧
    truncVal (PyVal.str longStr) = strTake (pyRepr (PyVal.str longStr)) 45 ++ "..." ∧
    (truncVal (PyVal.str longStr)).length ≤ 48 :=
  ⟨by decide,
   (c9_argument_truncation []).2.2.2.2 (PyVal.str longStr) (by decide),
   (c9_argument_truncation []).2.2.2.1 (PyVal.str longStr)⟩

/-- C10: prompting a known session mutates only that session: every other
session's entry (conversation and cancellation flag) looks up unchanged, and
the key structure of the session map is unchanged. -/
theorem c10_prompt_frame {σ : Type}
    (llm : σ → List Message → Bool → Except String LLMResponse × σ)
    (cB cA : Nat → Bool) (s0 : σ) (fc : Bool)
    (sessions : List (String × SessionState)) (sid text : String)
    (st : SessionState) (h : lookupAssoc sessions sid = some st) :
    (∀ sid2, sid2 ≠ sid →
      lookupAssoc (prompt llm cB cA s0 fc sessions sid text).2 sid2 =
        lookupAssoc sessions sid2) ∧
    (prompt llm cB cA s0 fc sessions sid text).2.map Prod.fst =
      sessions.map Prod.fst := by
  constructor
  · intro sid2 hne
    simp only [prompt, h]
    exact lookupAssoc_updateAssoc_ne sessions sid sid2 _ hne
  · simp only [prompt, h]
    exact map_fst_updateAssoc sessions sid _

/-- Witness for C10 on a concrete two-session map. -/
theorem c10_witness :
    lookupAssoc (prompt wLLM (fun _ => false) (fun _ => false) 0 false
      wSessions "a" "hi").2 "b" = lookupAssoc wSessions "b" ∧
    (prompt wLLM (fun _ => false) (fun _ => false) 0 false
      wSessions "a" "hi").2.map Prod.fst = wSessions.map Prod.fst :=
  ⟨(c10_prompt_frame wLLM (fun _ => false) (fun _ => false) 0 false
      wSessions "a" "hi" wSession rfl).1 "b" (by decide),
   (c10_prompt_frame wLLM (fun _ => false) (fun _ => false) 0 false
      wSessions "a" "hi" wSession rfl).2⟩

end MiniAgent
